import Mathlib

/-!
A shallow embedding of the client-side cart / checkout / orders logic of the
Project_main frontend (React + axios), together with proofs about it.

Conventions of the embedding:
* JavaScript numbers that the code treats as integers are modelled as `Int`
  (quantities, ids, totals) or `Nat` (parsed digit strings).
* Nullable / possibly-absent JavaScript values are modelled as `Option`.
* JavaScript string truthiness (`""` is falsy) is modelled explicitly where the
  source relies on it (`a || b` chains, `if (token)`, `tokens?.access`).
* Each network call is a parameter of the modelled operation: an
  `Except ErrResp α` is the outcome the server produced for that call.
-/

/-- An axios-style error as the catch blocks see it: `e?.response?.status`,
`e?.response?.data?.detail`, `e?.response?.data?.message`.  A missing
response (network failure) gives `status = none`. -/
structure ErrResp where
  status : Option Int
  detail : Option String
  message : Option String
deriving DecidableEq

/-- JS string truthiness for an optional string: `none` and `some ""` are
falsy. Returns the string when truthy. -/
def truthyStr : Option String → Option String
  | none => none
  | some s => if s = "" then none else some s

/-- The JS idiom `a || b` on an optional string `a` with fallback `b`. -/
def jsOrStr (a : Option String) (b : String) : String :=
  match truthyStr a with
  | some s => s
  | none => b

/-- One cart line as the cart page consumes it
(`{ id, sku, name, qty, price, image_url, backordered, expected_date }`). -/
structure CartItem where
  id : Int
  sku : String
  name : String
  qty : Int
  price : Int
  image_url : Option String
  backordered : Bool
  expected_date : Option String
deriving DecidableEq

/-- The cart snapshot kept in component state: items plus server-computed
totals, the applied coupon, a version field and the optional
maximum-quantity policy `max_qty`. -/
structure Cart where
  version : Option String
  items : List CartItem
  subtotal : Int
  discount_total : Int
  tax_total : Int
  shipping_total : Int
  grand_total : Int
  coupon : Option String
  max_qty : Option Int
deriving DecidableEq

/-- The zeroed cart shape substituted by `load()` when the fetch fails. -/
def emptyCart : Cart :=
  { version := none
    items := []
    subtotal := 0
    discount_total := 0
    tax_total := 0
    shipping_total := 0
    grand_total := 0
    coupon := none
    max_qty := none }

/-- The `load()` reload of CartPage: on success replace the snapshot with the fetched
cart and clear the error; on failure substitute `emptyCart` and surface
`detail` or a generic message.  Result is (new cart state, error message). -/
def loadResult (res : Except ErrResp Cart) : Cart × String :=
  match res with
  | Except.ok c => (c, "")
  | Except.error e =>
      (emptyCart, jsOrStr e.detail "Could not load cart. Please refresh the page.")

/-- The `maxQty` derivation of the cart page:
`Number(cart?.max_qty || 0) || null` — absent or zero becomes `null`,
any other number (including a negative one) is kept. -/
def jsMaxQty : Option Int → Option Int
  | none => none
  | some n => if n = 0 then none else some n

/-- The two clamping lines at the top of `changeQty`:
`if (nextQty < 1) nextQty = 1; if (maxQty && nextQty > maxQty) nextQty = maxQty;` -/
def clampQty (c : Cart) (q : Int) : Int :=
  let q1 := if q < 1 then 1 else q
  match jsMaxQty c.max_qty with
  | some m => if q1 > m then m else q1
  | none => q1

/-- JS whitespace (`\s`, ASCII fragment) as used by the `Available:` regex. -/
def isJsSpace (c : Char) : Bool :=
  c = ' ' || c = '\t' || c = '\n' || c = '\r' || c = '\x0b' || c = '\x0c'

/-- Case-insensitive literal match: strip `pat` (case-insensitively) from the
front of `cs`, returning the rest on success. -/
def stripPrefCI : List Char → List Char → Option (List Char)
  | [], rest => some rest
  | _ :: _, [] => none
  | p :: ps, c :: cs => if p.toLower = c.toLower then stripPrefCI ps cs else none

/-- Value of a digit string, as `Number` yields on the regex capture. -/
def digitsVal (ds : List Char) : Nat :=
  ds.foldl (fun a c => a * 10 + (c.toNat - 48)) 0

/-- Try the regex `/Available:\s*(\d+)/i` anchored at the head of `cs`:
match "available:" case-insensitively, skip whitespace, then require at
least one digit; return the captured number. -/
def tryMatchAt (cs : List Char) : Option Nat :=
  match stripPrefCI "available:".toList cs with
  | none => none
  | some rest =>
      let ds := (rest.dropWhile isJsSpace).takeWhile (fun c => c.isDigit)
      if ds = [] then none else some (digitsVal ds)

/-- Model of `String(raw).match(/Available:\s*(\d+)/i)`: first position (left to
right) where the pattern matches, returning the captured count. -/
def extractAvail : List Char → Option Nat
  | [] => none
  | c :: cs =>
      match tryMatchAt (c :: cs) with
      | some n => some n
      | none => extractAvail cs

/-- The `raw` message of `prettifyQtyError`:
`e?.response?.data?.detail || e?.response?.data?.message || "Could not update quantity."`. -/
def rawQtyMsg (e : ErrResp) : String :=
  jsOrStr e.detail (jsOrStr e.message "Could not update quantity.")

/-- The `prettifyQtyError` helper of CartPage: 429 gets a dedicated slow-down message;
a 409 whose payload embeds `Available: N` becomes a stock-change message;
anything else surfaces the raw payload text. -/
def prettifyQtyError (e : ErrResp) : String :=
  if e.status = some 429 then
    "You\x27re doing that too quickly. Please slow down and try again."
  else
    let raw := rawQtyMsg e
    match extractAvail raw.toList with
    | some n =>
        if e.status = some 409 then
          "Stock changed — only " ++ toString n ++ " left."
        else raw
    | none => raw

/-- The optimistic local rewrite inside `changeQty`:
`{ ...cart, items: items.map(it => it.id === itemId ? { ...it, qty } : it) }`. -/
def optimisticCart (c : Cart) (itemId : Int) (q : Int) : Cart :=
  { c with
    items := c.items.map (fun it => if it.id = itemId then { it with qty := q } else it) }

/-- Everything observable about one `changeQty` run: the quantity sent in the
PATCH body, the optimistically rendered cart, and the final cart and error
message once the server calls have resolved. -/
structure QtyOutcome where
  sentQty : Int
  rendered : Cart
  final : Cart
  finalErr : String
deriving DecidableEq

/-- The cart operation `changeQty(itemId, nextQty)`: clamp, capture `prev`, render the optimistic
cart, PATCH the line; on success reload the authoritative cart, on failure
roll back to `prev` and surface `prettifyQtyError`. `patch` and `reload` are
the outcomes of the two server calls. -/
def changeQty (c : Cart) (itemId : Int) (nextQty : Int)
    (patch : Except ErrResp Unit) (reload : Except ErrResp Cart) : QtyOutcome :=
  let q := clampQty c nextQty
  let prev := c
  let optim := optimisticCart c itemId q
  match patch with
  | Except.ok _ =>
      let lr := loadResult reload
      { sentQty := q, rendered := optim, final := lr.1, finalErr := lr.2 }
  | Except.error e =>
      { sentQty := q, rendered := optim, final := prev, finalErr := prettifyQtyError e }

/-- The error-message computation in the `applyCoupon` catch block of CartPage:
`detail || message || (status === 429 ? wait-message : generic)`.
The payload fields take precedence over the 429 special case. -/
def couponFailMsg (e : ErrResp) : String :=
  jsOrStr e.detail
    (jsOrStr e.message
      (if e.status = some 429 then
        "Too many attempts. Please wait a moment and try again."
      else "Coupon failed. Check the code and try again."))

/-- The `raw` message inside `prettifyError` of the checkout page. -/
def rawOrderMsg (e : ErrResp) : String :=
  jsOrStr e.detail (jsOrStr e.message "Could not place order.")

/-- The `prettifyError` helper of the checkout page: 429 gets a dedicated rate-limit
message before the payload is consulted; a 409 embedding `Available: N`
becomes a stock-change message; otherwise the raw payload text. -/
def prettifyOrderError (e : ErrResp) : String :=
  if e.status = some 429 then
    "Too many requests — please try again in a moment."
  else
    let raw := rawOrderMsg e
    if e.status = some 409 then
      match extractAvail raw.toList with
      | some n => "Stock changed — only " ++ toString n ++ " left on one or more items."
      | none => raw
    else raw

/-- A JavaScript value as it can appear in `params._public`. -/
inductive JSVal where
  | vstr : String → JSVal
  | vnum : Int → JSVal
  | vbool : Bool → JSVal
deriving DecidableEq

/-- JS `String(v)` on the modelled values. -/
def jsString : JSVal → String
  | JSVal.vstr s => s
  | JSVal.vnum n => toString n
  | JSVal.vbool b => if b then "true" else "false"

/-- An axios request config as the interceptor sees it: whether a `params`
object is present, the value of `params._public` (when present), and the
`Authorization` header (when present). -/
structure ReqConfig where
  hasParams : Bool
  publicParam : Option JSVal
  authHeader : Option String
deriving DecidableEq

/-- The public-request test of the interceptor:
`(cfg?.params && String(cfg.params._public) === "1") || (cfg?.params &&
cfg.params._public === 1) || (cfg?.params && cfg.params._public === true)`. -/
def isPublicCfg (cfg : ReqConfig) : Bool :=
  cfg.hasParams &&
    match cfg.publicParam with
    | some v => jsString v = "1" || v = JSVal.vnum 1 || v = JSVal.vbool true
    | none => false

/-- Model of `auth.access()`: `localStorage.getItem(TOKEN_KEY) || null`.  The store is
the raw content of the `jwt_access` key. -/
def authAccess (store : Option String) : Option String :=
  match store with
  | none => none
  | some v => if v = "" then none else some v

/-- The request interceptor of `src/lib/api.js`: on a non-public request a
truthy stored token is attached as `Bearer <token>`; on a public request a
truthy pre-existing `Authorization` header is deleted. -/
def interceptRequest (cfg : ReqConfig) (store : Option String) : ReqConfig :=
  if isPublicCfg cfg then
    match cfg.authHeader with
    | some h => if h = "" then cfg else { cfg with authHeader := none }
    | none => cfg
  else
    match authAccess store with
    | some t => { cfg with authHeader := some ("Bearer " ++ t) }
    | none => cfg

/-- Whether a config carries a (JS-truthy) `Authorization` credential. -/
def carriesAuth (cfg : ReqConfig) : Bool :=
  match cfg.authHeader with
  | some h => h ≠ ""
  | none => false

/-- Model of `auth.set(tokens)`: `if (tokens?.access) localStorage.setItem(TOKEN_KEY,
tokens.access)` — writes only when `access` is present and truthy. -/
structure Tokens where
  access : Option String
  refresh : Option String
deriving DecidableEq

/-- The new content of the `jwt_access` key after `auth.set(tokens)`. -/
def authSet (tokens : Option Tokens) (store : Option String) : Option String :=
  match tokens with
  | none => store
  | some t =>
      match t.access with
      | none => store
      | some a => if a = "" then store else some a

/-- An order as the orders page renders it (only identity matters here). -/
structure Order where
  id : Int
deriving DecidableEq

/-- Observable outcome of one `load()` of the orders page: the rendered list,
the inline error message, the email used for a public fetch when one was
issued, and the `loadedRef` flag afterwards. -/
structure OrdersOutcome where
  orders : List Order
  errMsg : String
  publicEmail : Option String
  loadedAfter : Bool
deriving DecidableEq

/-- The demo email derivation `(currentUser.email || "").trim() || "buyer@example.com"`. -/
def demoEmailOf (remembered : String) : String :=
  if remembered.trim = "" then "buyer@example.com" else remembered.trim

/-- The `load()` function of the orders page.  `isAuthed` is whether a token was stored at
mount, `loadedBefore` is `loadedRef.current`, `remembered` is the persisted
email, `authFetch` the outcome of `GET /orders/me/` and `publicFetch` the
outcome of the public email-keyed `GET /orders/` per email. -/
def ordersLoad (isAuthed : Bool) (loadedBefore : Bool) (remembered : String)
    (authFetch : Except ErrResp (List Order))
    (publicFetch : String → Except ErrResp (List Order)) : OrdersOutcome :=
  if isAuthed then
    match authFetch with
    | Except.ok os => { orders := os, errMsg := "", publicEmail := none, loadedAfter := true }
    | Except.error e =>
        if e.status = some 401 && !loadedBefore then
          let em := demoEmailOf remembered
          match publicFetch em with
          | Except.ok os =>
              { orders := os, errMsg := "Session expired. Showing demo orders."
                publicEmail := some em, loadedAfter := true }
          | Except.error _ =>
              { orders := [], errMsg := "Could not load orders."
                publicEmail := some em, loadedAfter := true }
        else
          { orders := [], errMsg := "Could not load orders."
            publicEmail := none, loadedAfter := true }
  else
    let em := demoEmailOf remembered
    match publicFetch em with
    | Except.ok os =>
        { orders := os, errMsg := "", publicEmail := some em, loadedAfter := true }
    | Except.error _ =>
        { orders := [], errMsg := "Could not load orders."
          publicEmail := some em, loadedAfter := true }

/-- A shipping quote as the checkout page consumes it. -/
structure Quote where
  id : Int
  amount : Int
deriving DecidableEq

/-- The selection update performed by `loadQuotes` on a freshly returned
`list`, given the previous selection `sel` (`shippingId`, `null` modelled as
`none`).  Inside the `setQuotes` updater, a selection absent from the new
list is reset to the first quote (or `null`); afterwards
`if (!shippingId && list.length) setShippingId(list[0].id)` re-fires on the
old, JS-falsy selection (so `null` and `0` alike). -/
def newShippingSelection (list : List Quote) (sel : Option Int) : Option Int :=
  let stillThere :=
    match sel with
    | some s => list.any (fun q => q.id = s)
    | none => false
  let afterFirst : Option Int :=
    if stillThere then sel
    else
      match list with
      | [] => none
      | q :: _ => some q.id
  let selFalsy :=
    match sel with
    | none => true
    | some s => s = 0
  match list with
  | [] => afterFirst
  | q :: _ => if selFalsy then some q.id else afterFirst

/-- The whole `loadQuotes`: bail out when the subtotal is JS-falsy (absent
cart totals or zero subtotal); on fetch failure clear the quotes but keep
the selection; on success store the list and update the selection. -/
def loadQuotes (subtotal : Option Int) (quotes : List Quote) (sel : Option Int)
    (fetch : Except ErrResp (List Quote)) : List Quote × Option Int :=
  match subtotal with
  | none => (quotes, sel)
  | some st =>
      if st = 0 then (quotes, sel)
      else
        match fetch with
        | Except.ok list => (list, newShippingSelection list sel)
        | Except.error _ => ([], sel)

/-- Substring containment on strings, as lists of characters. -/
def strContainsP (s pat : String) : Prop :=
  List.IsInfix pat.data s.data

instance (s pat : String) : Decidable (strContainsP s pat) :=
  List.decidableInfix pat.data s.data

/-- String append acts as list append on the character data. -/
theorem strDataAppend (s t : String) : (s ++ t).data = s.data ++ t.data := by
  cases s; cases t; rfl

/-- A string occurs in any string assembled around it. -/
theorem strContains_middle (a m b : String) : strContainsP (a ++ m ++ b) m := by
  unfold strContainsP
  rw [strDataAppend, strDataAppend]
  exact List.infix_append _ _ _

/-- Containment is preserved by prepending more text. -/
theorem strContains_lift (a b p : String) (h : strContainsP b p) :
    strContainsP (a ++ b) p := by
  unfold strContainsP at h ⊢
  rw [strDataAppend]
  obtain ⟨s, t, hst⟩ := h
  exact ⟨a.data ++ s, t, by rw [← hst]; simp [List.append_assoc]⟩

/-- A JS `a || b` chain with a nonempty fallback never yields the empty
string. -/
theorem jsOrStr_ne (a : Option String) (b : String) (hb : b ≠ "") :
    jsOrStr a b ≠ "" := by
  unfold jsOrStr truthyStr
  cases a with
  | none => simpa
  | some s => by_cases hs : s = "" <;> simp [hs, hb]

/-- C1: if the PATCH of a quantity change fails, the cart state rendered after
the failure is exactly the snapshot captured before the optimistic
mutation. -/
theorem changeQty_rollback_exact (c : Cart) (itemId nextQty : Int) (e : ErrResp)
    (reload : Except ErrResp Cart) :
    (changeQty c itemId nextQty (Except.error e) reload).final = c := rfl

/-- C3 fails as stated: a `max_qty` that coerces to a negative number is
JS-truthy, so `changeQty` clamps downward to it; with `max_qty = -5` and
`nextQty = 3` the quantity sent is `-5`, not the `3` required by the "otherwise"
clause requires. -/
theorem clamp_negative_max_counterexample :
    (changeQty { emptyCart with max_qty := some (-5) } 1 3
        (Except.ok ()) (Except.ok emptyCart)).sentQty = -5 ∧
    (changeQty { emptyCart with max_qty := some (-5) } 1 3
        (Except.ok ()) (Except.ok emptyCart)).sentQty ≠ 3 := by
  decide

/-- C3 amended: the quantity sent is `nextQty` raised to at least 1; when
`max_qty` coerces to a nonzero number `m` (positive or not), the raised
quantity is further clamped down to `m` whenever it exceeds `m`. -/
theorem changeQty_clamp_amended (c : Cart) (itemId nextQty : Int)
    (patch : Except ErrResp Unit) (reload : Except ErrResp Cart) :
    (jsMaxQty c.max_qty = none →
      (changeQty c itemId nextQty patch reload).sentQty = max 1 nextQty) ∧
    (∀ m : Int, jsMaxQty c.max_qty = some m →
      (changeQty c itemId nextQty patch reload).sentQty = min (max 1 nextQty) m) := by
  constructor
  · intro h
    cases patch <;> simp [changeQty, clampQty, h] <;> split_ifs <;> omega
  · intro m h
    cases patch <;> simp [changeQty, clampQty, h] <;> split_ifs <;> omega

/-- Witness for the amended C3 at concrete inputs. -/
theorem changeQty_clamp_witness :
    (changeQty emptyCart 1 0 (Except.ok ()) (Except.ok emptyCart)).sentQty = 1 ∧
    (changeQty { emptyCart with max_qty := some 4 } 1 9
        (Except.ok ()) (Except.ok emptyCart)).sentQty = 4 := by
  have h1 := (changeQty_clamp_amended emptyCart 1 0
    (Except.ok ()) (Except.ok emptyCart)).1 (by decide)
  have h2 := (changeQty_clamp_amended { emptyCart with max_qty := some 4 } 1 9
    (Except.ok ()) (Except.ok emptyCart)).2 4 (by decide)
  exact ⟨by rw [h1]; decide, by rw [h2]; decide⟩

/-- C7: a successful reload replaces the whole snapshot by the fetched cart
and clears the error; a failed reload substitutes the zeroed empty shape
(empty items, all five totals zero, null coupon, null version) and surfaces
a nonempty error message. -/
theorem cart_load_replace_spec (c : Cart) (e : ErrResp) :
    loadResult (Except.ok c) = (c, "") ∧
    (loadResult (Except.error e)).1.version = none ∧
    (loadResult (Except.error e)).1.items = [] ∧
    (loadResult (Except.error e)).1.subtotal = 0 ∧
    (loadResult (Except.error e)).1.discount_total = 0 ∧
    (loadResult (Except.error e)).1.tax_total = 0 ∧
    (loadResult (Except.error e)).1.shipping_total = 0 ∧
    (loadResult (Except.error e)).1.grand_total = 0 ∧
    (loadResult (Except.error e)).1.coupon = none ∧
    (loadResult (Except.error e)).2 ≠ "" := by
  refine ⟨rfl, rfl, rfl, rfl, rfl, rfl, rfl, rfl, rfl, ?_⟩
  exact jsOrStr_ne e.detail _ (by decide)

/-- C2 fails as stated for coupon application: in `applyCoupon` the payload
`detail` takes precedence over the 429 special case, so a 429 whose payload
carries a `detail` shows that detail, not the dedicated wait message. -/
theorem couponMsg_429_detail_counterexample :
    couponFailMsg { status := some 429, detail := some "Rate limited by server",
                    message := none } = "Rate limited by server" ∧
    couponFailMsg { status := some 429, detail := some "Rate limited by server",
                    message := none } ≠
      "Too many attempts. Please wait a moment and try again." := by
  decide

/-- C2 amended: a 429 during a quantity change or a checkout submission always
yields the dedicated slow-down message of that flow, regardless of the payload; a
429 during coupon application yields its dedicated wait message only when
the payload carries no truthy `detail` or `message` field. -/
theorem rate_limit_messages_amended (e : ErrResp) (h : e.status = some 429) :
    prettifyQtyError e =
      "You\x27re doing that too quickly. Please slow down and try again." ∧
    prettifyOrderError e = "Too many requests — please try again in a moment." ∧
    (truthyStr e.detail = none → truthyStr e.message = none →
      couponFailMsg e = "Too many attempts. Please wait a moment and try again.") := by
  refine ⟨?_, ?_, ?_⟩
  · simp [prettifyQtyError, h]
  · simp [prettifyOrderError, h]
  · intro hd hm
    simp [couponFailMsg, jsOrStr, hd, hm, h]

/-- Witness for the amended C2 at a concrete 429 error. -/
theorem rate_limit_messages_witness :
    prettifyQtyError { status := some 429, detail := none, message := none } =
      "You\x27re doing that too quickly. Please slow down and try again." ∧
    prettifyOrderError { status := some 429, detail := none, message := none } =
      "Too many requests — please try again in a moment." ∧
    couponFailMsg { status := some 429, detail := none, message := none } =
      "Too many attempts. Please wait a moment and try again." := by
  have h := rate_limit_messages_amended
    { status := some 429, detail := none, message := none } rfl
  exact ⟨h.1, h.2.1, h.2.2 rfl rfl⟩

/-- C4 fails as stated: a 409 payload embedding `Available: 007` matches the
pattern with digit string `N = "007"`, but the message shows the parsed
number (`7`), so it does not contain `007`. -/
theorem qty409_leading_zero_counterexample :
    strContainsP "Stock low. Available: 007" "Available: 007" ∧
    prettifyQtyError { status := some 409, detail := some "Stock low. Available: 007",
                       message := none } = "Stock changed — only 7 left." ∧
    ¬ strContainsP
        (prettifyQtyError { status := some 409, detail := some "Stock low. Available: 007",
                            message := none }) "007" := by
  refine ⟨by decide, by decide, by decide⟩

/-- C4 amended: a quantity-change failure with status 409 whose raw payload
text matches `Available: <digits>` produces a message containing the decimal
numeral of the parsed count (leading zeros stripped) and the word "left". -/
theorem qty409_available_amended (e : ErrResp) (n : Nat)
    (h409 : e.status = some 409)
    (hx : extractAvail (rawQtyMsg e).toList = some n) :
    strContainsP (prettifyQtyError e) (toString n) ∧
    strContainsP (prettifyQtyError e) "left" := by
  have hx' : extractAvail (rawQtyMsg e).data = some n := hx
  have hmsg : prettifyQtyError e = "Stock changed — only " ++ toString n ++ " left." := by
    simp [prettifyQtyError, h409, hx']
  rw [hmsg]
  constructor
  · exact strContains_middle _ _ _
  · exact strContains_lift ("Stock changed — only " ++ toString n) " left." "left"
      (by decide)

/-- Witness for the amended C4 at a concrete 409 payload. -/
theorem qty409_available_witness :
    strContainsP
      (prettifyQtyError { status := some 409, detail := some "Available: 3",
                          message := none }) (toString 3) ∧
    strContainsP
      (prettifyQtyError { status := some 409, detail := some "Available: 3",
                          message := none }) "left" := by
  exact qty409_available_amended
    { status := some 409, detail := some "Available: 3", message := none } 3
    rfl (by decide)

/-- C5: on a request not marked public, a stored (truthy) token is attached as
a `Bearer` credential; on a request marked public the outgoing config carries
no credential, and a truthy pre-existing `Authorization` header is deleted. -/
theorem interceptor_auth_spec (cfg : ReqConfig) (store : Option String) :
    (∀ t, isPublicCfg cfg = false → authAccess store = some t →
      (interceptRequest cfg store).authHeader = some ("Bearer " ++ t)) ∧
    (isPublicCfg cfg = true → carriesAuth (interceptRequest cfg store) = false) ∧
    (∀ h, isPublicCfg cfg = true → cfg.authHeader = some h → h ≠ "" →
      (interceptRequest cfg store).authHeader = none) := by
  refine ⟨?_, ?_, ?_⟩
  · intro t hpub htok
    simp [interceptRequest, hpub, htok]
  · intro hpub
    unfold interceptRequest carriesAuth
    rw [hpub]
    simp only [if_true]
    cases hh : cfg.authHeader with
    | none => simp [hh]
    | some h => by_cases he : h = "" <;> simp [hh, he]
  · intro h hpub hh hne
    simp [interceptRequest, hpub, hh, hne]

/-- Witness for C5 at concrete configs: a private request with a stored token,
and a public request with a stale bearer header. -/
theorem interceptor_auth_witness :
    (interceptRequest { hasParams := false, publicParam := none, authHeader := none }
        (some "tok")).authHeader = some ("Bearer " ++ "tok") ∧
    carriesAuth
      (interceptRequest
        { hasParams := true, publicParam := some (JSVal.vnum 1),
          authHeader := some "Bearer old" } (some "tok")) = false ∧
    (interceptRequest
        { hasParams := true, publicParam := some (JSVal.vnum 1),
          authHeader := some "Bearer old" } (some "tok")).authHeader = none := by
  refine ⟨?_, ?_, ?_⟩
  · exact (interceptor_auth_spec
      { hasParams := false, publicParam := none, authHeader := none }
      (some "tok")).1 "tok" (by decide) rfl
  · exact (interceptor_auth_spec
      { hasParams := true, publicParam := some (JSVal.vnum 1),
        authHeader := some "Bearer old" } (some "tok")).2.1 (by decide)
  · exact (interceptor_auth_spec
      { hasParams := true, publicParam := some (JSVal.vnum 1),
        authHeader := some "Bearer old" } (some "tok")).2.2 "Bearer old"
      (by decide) rfl (by decide)

/-- C6: on the first load of the orders view with a stored token, a 401 from
the authenticated fetch triggers a public email-keyed fetch with the
remembered email (or the demo seed); when that succeeds its result is
rendered with the session-expired notice.  On a later load (`loadedRef`
already set) a 401 triggers no fallback fetch. -/
theorem orders_fallback_spec (remembered : String) (e : ErrResp)
    (publicFetch : String → Except ErrResp (List Order)) (os : List Order) :
    (e.status = some 401 → publicFetch (demoEmailOf remembered) = Except.ok os →
      (ordersLoad true false remembered (Except.error e) publicFetch).orders = os ∧
      (ordersLoad true false remembered (Except.error e) publicFetch).errMsg =
        "Session expired. Showing demo orders." ∧
      (ordersLoad true false remembered (Except.error e) publicFetch).publicEmail =
        some (demoEmailOf remembered)) ∧
    (remembered.trim ≠ "" → demoEmailOf remembered = remembered.trim) ∧
    (remembered.trim = "" → demoEmailOf remembered = "buyer@example.com") ∧
    (ordersLoad true true remembered (Except.error e) publicFetch).publicEmail = none ∧
    (ordersLoad true true remembered (Except.error e) publicFetch).orders = [] := by
  refine ⟨?_, ?_, ?_, ?_, ?_⟩
  · intro h401 hpub
    simp [ordersLoad, h401, hpub]
  · intro h
    simp [demoEmailOf, h]
  · intro h
    simp [demoEmailOf, h]
  · simp [ordersLoad]
  · simp [ordersLoad]

/-- Witness for C6: first-load 401 with a public fetch returning one order. -/
theorem orders_fallback_witness :
    (ordersLoad true false ""
        (Except.error { status := some 401, detail := none, message := none })
        (fun _ => Except.ok [{ id := 7 }])).orders = [{ id := 7 }] ∧
    (ordersLoad true false ""
        (Except.error { status := some 401, detail := none, message := none })
        (fun _ => Except.ok [{ id := 7 }])).errMsg =
      "Session expired. Showing demo orders." := by
  have h := (orders_fallback_spec "" { status := some 401, detail := none, message := none }
    (fun _ => Except.ok [{ id := 7 }]) [{ id := 7 }]).1 rfl rfl
  exact ⟨h.1, h.2.1⟩

/-- C8 fails as stated: a selected quote id of `0` is JS-falsy, so even when
it is still present in the new list the second `setShippingId` re-fires and
resets the selection to the first quote. -/
theorem quote_selection_zero_counterexample :
    ([{ id := 5, amount := 10 }, { id := 0, amount := 20 }] : List Quote).any
      (fun q => q.id = 0) = true ∧
    newShippingSelection [{ id := 5, amount := 10 }, { id := 0, amount := 20 }]
      (some 0) = some 5 ∧
    newShippingSelection [{ id := 5, amount := 10 }, { id := 0, amount := 20 }]
      (some 0) ≠ some 0 := by
  decide

/-- C8 amended: with no selection, with a selection absent from the new list,
or with the JS-falsy selection `0`, the selection becomes the first quote of
the new list (or none if it is empty); a nonzero selected id still present in
the new list is preserved. -/
theorem quote_selection_amended (list : List Quote) (sel : Option Int) :
    (sel = none → newShippingSelection list sel = list.head?.map Quote.id) ∧
    (sel = some 0 → newShippingSelection list sel = list.head?.map Quote.id) ∧
    (∀ s, sel = some s → s ≠ 0 → list.any (fun q => q.id = s) = false →
      newShippingSelection list sel = list.head?.map Quote.id) ∧
    (∀ s, sel = some s → s ≠ 0 → list.any (fun q => q.id = s) = true →
      newShippingSelection list sel = some s) := by
  refine ⟨?_, ?_, ?_, ?_⟩
  · intro h
    subst h
    cases list <;> simp [newShippingSelection]
  · intro h
    subst h
    cases list <;> simp [newShippingSelection]
  · intro s h hs habs
    subst h
    cases list with
    | nil => simp [newShippingSelection]
    | cons q qs => simp [newShippingSelection, habs, hs]
  · intro s h hs hpres
    subst h
    cases list with
    | nil => simp at hpres
    | cons q qs => simp [newShippingSelection, hpres, hs]

/-- Witness for the amended C8: a preserved nonzero selection and a reset
empty selection. -/
theorem quote_selection_witness :
    newShippingSelection [{ id := 5, amount := 10 }, { id := 7, amount := 20 }]
      (some 7) = some 7 ∧
    newShippingSelection [{ id := 5, amount := 10 }, { id := 7, amount := 20 }]
      none = some 5 := by
  constructor
  · exact (quote_selection_amended
      [{ id := 5, amount := 10 }, { id := 7, amount := 20 }] (some 7)).2.2.2 7 rfl
      (by decide) (by decide)
  · have h := (quote_selection_amended
      [{ id := 5, amount := 10 }, { id := 7, amount := 20 }] none).1 rfl
    simpa using h

/-- Mapping over a list acts pointwise on `get?`. -/
theorem listGetMap (f : α → β) : ∀ (l : List α) (i : Nat),
    (l.map f).get? i = (l.get? i).map f
  | [], _ => by simp
  | _ :: _, 0 => rfl
  | _ :: l, i + 1 => listGetMap f l i

/-- C9: the optimistically rendered cart of `changeQty` differs from the prior
snapshot only in the `qty` field of the items whose id is the targeted one:
all cart-level fields, every other item, and every other field of the
targeted item are unchanged. -/
theorem optimistic_frame_spec (c : Cart) (itemId nextQty : Int)
    (patch : Except ErrResp Unit) (reload : Except ErrResp Cart) (o : Cart)
    (ho : o = (changeQty c itemId nextQty patch reload).rendered) :
    o.version = c.version ∧ o.subtotal = c.subtotal ∧
    o.discount_total = c.discount_total ∧ o.tax_total = c.tax_total ∧
    o.shipping_total = c.shipping_total ∧ o.grand_total = c.grand_total ∧
    o.coupon = c.coupon ∧ o.max_qty = c.max_qty ∧
    o.items.length = c.items.length ∧
    (∀ i it, c.items.get? i = some it →
      ∃ it', o.items.get? i = some it' ∧
        it'.id = it.id ∧ it'.sku = it.sku ∧ it'.name = it.name ∧
        it'.price = it.price ∧ it'.image_url = it.image_url ∧
        it'.backordered = it.backordered ∧ it'.expected_date = it.expected_date ∧
        (it.id ≠ itemId → it'.qty = it.qty) ∧
        (it.id = itemId → it'.qty = clampQty c nextQty)) := by
  have hor : o = optimisticCart c itemId (clampQty c nextQty) := by
    cases patch <;> simpa [changeQty] using ho
  subst hor
  refine ⟨rfl, rfl, rfl, rfl, rfl, rfl, rfl, rfl, ?_, ?_⟩
  · simp [optimisticCart]
  · intro i it hit
    by_cases hid : it.id = itemId
    · refine ⟨{ it with qty := clampQty c nextQty }, ?_, rfl, rfl, rfl, rfl, rfl,
        rfl, rfl, ?_, ?_⟩
      · simp only [optimisticCart]
        rw [listGetMap, hit]
        simp [hid]
      · intro hne
        exact absurd hid hne
      · intro _
        rfl
    · refine ⟨it, ?_, rfl, rfl, rfl, rfl, rfl, rfl, rfl, ?_, ?_⟩
      · simp only [optimisticCart]
        rw [listGetMap, hit]
        simp [hid]
      · intro _
        rfl
      · intro hEq
        exact absurd hEq hid

/-- A concrete two-line cart for the C9 witness. -/
def itemW9a : CartItem :=
  { id := 1, sku := "SKU-1", name := "Shirt", qty := 1, price := 100
    image_url := none, backordered := false, expected_date := none }

/-- Second line of the C9 witness cart. -/
def itemW9b : CartItem :=
  { id := 2, sku := "SKU-2", name := "Shoe", qty := 2, price := 50
    image_url := some "img", backordered := true, expected_date := some "2026-01-01" }

/-- The C9 witness cart. -/
def cartW9 : Cart :=
  { version := some "v1", items := [itemW9a, itemW9b], subtotal := 200
    discount_total := 0, tax_total := 10, shipping_total := 20, grand_total := 230
    coupon := none, max_qty := none }

/-- Witness for C9: changing item 2 leaves the subtotal and the untouched
item 1 intact. -/
theorem optimistic_frame_witness :
    (changeQty cartW9 2 5 (Except.ok ()) (Except.ok emptyCart)).rendered.subtotal
      = cartW9.subtotal ∧
    ∃ it', (changeQty cartW9 2 5 (Except.ok ())
        (Except.ok emptyCart)).rendered.items.get? 0 = some it' ∧ it'.qty = 1 := by
  have h := optimistic_frame_spec cartW9 2 5 (Except.ok ()) (Except.ok emptyCart)
    ((changeQty cartW9 2 5 (Except.ok ()) (Except.ok emptyCart)).rendered) rfl
  refine ⟨h.2.1, ?_⟩
  obtain ⟨it', hget, _, _, _, _, _, _, _, hq, _⟩ :=
    h.2.2.2.2.2.2.2.2.2 0 itemW9a rfl
  exact ⟨it', hget, (hq (by decide)).trans rfl⟩

/-- C10: `auth.set` with a null/undefined argument or an absent or falsy
`access` field writes nothing: the stored token and the value `auth.access()`
reports are unchanged. -/
theorem auth_set_noop_spec (tokens : Option Tokens) (store : Option String)
    (hfalsy : tokens = none ∨
      ∃ t, tokens = some t ∧ (t.access = none ∨ t.access = some "")) :
    authSet tokens store = store ∧
    authAccess (authSet tokens store) = authAccess store := by
  have hs : authSet tokens store = store := by
    rcases hfalsy with h | ⟨t, ht, hacc⟩
    · simp [authSet, h]
    · rcases hacc with ha | ha <;> simp [authSet, ht, ha]
  exact ⟨hs, by rw [hs]⟩

/-- Witness for C10: an empty-string access token writes nothing. -/
theorem auth_set_noop_witness :
    authSet (some { access := some "", refresh := some "r" }) (some "tok")
      = some "tok" ∧
    authAccess (authSet (some { access := some "", refresh := some "r" })
      (some "tok")) = authAccess (some "tok") := by
  exact auth_set_noop_spec (some { access := some "", refresh := some "r" })
    (some "tok") (Or.inr ⟨_, rfl, Or.inr rfl⟩)

/-- Witness for C7 at a concrete successful and a concrete failed reload. -/
theorem cart_load_replace_witness :
    loadResult (Except.ok cartW9) = (cartW9, "") ∧
    (loadResult
      (Except.error { status := none, detail := none, message := none })).1.items
      = [] ∧
    (loadResult
      (Except.error { status := none, detail := none, message := none })).2
      ≠ "" := by
  have h := cart_load_replace_spec cartW9
    { status := none, detail := none, message := none }
  exact ⟨h.1, h.2.2.1, h.2.2.2.2.2.2.2.2.2⟩
